import Mathlib

/-!
Verification of the `AzureBlobStorage` facade from `src/storage/blob_storage.py`.

The facade is a thin wrapper over the external Azure Storage SDK.  We embed it
shallowly: the remote storage account is an explicit state (an association list
of containers, each an association list of blobs holding their byte content),
the primitive requests of the SDK collaborator are modelled as state-passing
functions following the collaborator contract of the specification (not-found
and already-exists signalling), and each facade method is translated line by
line from the Python source on top of those primitives.  Errors are values of
an explicit error type; a raised Python exception becomes an `Except.error`.
-/

namespace AzureBlob

/-- A byte sequence: each element is one byte value (0..255). -/
abbrev Bytes := List Nat

/-- Errors raised by the SDK collaborator or by the facade.  `resourceNotFound`
and `resourceExists` mirror `azure.core.exceptions.ResourceNotFoundError` and
`ResourceExistsError`; `clientAuthenticationError` and `serviceRequestError`
stand for the auth and network failures that the facade never handles;
`unicodeDecodeError` mirrors the Python decoding failure of `bytes.decode`;
`valueError` mirrors Python `ValueError`; `encodingNotModelled` marks codecs
other than utf-8, which the repository never uses and this model leaves out. -/
inductive AzureError where
  | resourceNotFound
  | resourceExists
  | clientAuthenticationError (msg : String)
  | serviceRequestError (msg : String)
  | unicodeDecodeError (encoding : String)
  | valueError (msg : String)
  | encodingNotModelled (encoding : String)
deriving DecidableEq

/-- The `Union[bytes, str]` argument of `upload_blob`. -/
inductive BlobData where
  | str (s : String)
  | bytes (b : Bytes)
deriving DecidableEq

/-- The blobs of one container: blob name to content, in listing order. -/
abbrev ContainerState := List (String × Bytes)

/-- The storage account: container name to container state. -/
abbrev AccountState := List (String × ContainerState)

/-- Lookup by key in an association list (first match). -/
def listLookup {α : Type} : List (String × α) → String → Option α
  | [], _ => none
  | (k, v) :: rest, key => if k = key then some v else listLookup rest key

/-- Replace the value at a key in an association list, or append it. -/
def listInsert {α : Type} : List (String × α) → String → α → List (String × α)
  | [], key, v => [(key, v)]
  | (k, w) :: rest, key, v =>
      if k = key then (key, v) :: rest else (k, w) :: listInsert rest key v

/-- Remove every entry with the given key from an association list. -/
def listRemove {α : Type} : List (String × α) → String → List (String × α)
  | [], _ => []
  | (k, w) :: rest, key =>
      if k = key then listRemove rest key else (k, w) :: listRemove rest key

/-- Content of a named blob in a named container, if both exist. -/
def stateBlobLookup (s : AccountState) (c b : String) : Option Bytes :=
  match listLookup s c with
  | none => none
  | some blobs => listLookup blobs b

/-- UTF-8 encoding of one unicode code point, as byte values. -/
def utf8EncodeChar (n : Nat) : Bytes :=
  if n < 0x80 then [n]
  else if n < 0x800 then [0xC0 + n / 64, 0x80 + n % 64]
  else if n < 0x10000 then
    [0xE0 + n / 4096, 0x80 + (n / 64) % 64, 0x80 + n % 64]
  else
    [0xF0 + n / 262144, 0x80 + (n / 4096) % 64, 0x80 + (n / 64) % 64, 0x80 + n % 64]

/-- UTF-8 encoding of a list of characters. -/
def utf8EncodeList : List Char → Bytes
  | [] => []
  | ch :: rest => utf8EncodeChar ch.toNat ++ utf8EncodeList rest

/-- Model of Python `str.encode` with the utf-8 codec. -/
def utf8Encode (s : String) : Bytes := utf8EncodeList s.data

/-- Strict UTF-8 decoding loop: accumulates code points, rejects stray
continuation bytes, overlong forms, surrogates and values above U+10FFFF,
exactly as Python strict utf-8 decoding does.  The fuel argument is the
number of remaining bytes; each step consumes at least one byte. -/
def utf8DecodeAux : Nat → Bytes → List Nat → Option (List Nat)
  | _, [], acc => some acc.reverse
  | 0, _ :: _, _ => none
  | fuel + 1, b0 :: rest, acc =>
    if b0 < 0x80 then utf8DecodeAux fuel rest (b0 :: acc)
    else if b0 < 0xC2 then none
    else if b0 < 0xE0 then
      match rest with
      | b1 :: rest2 =>
          if b1 / 64 = 2 then
            utf8DecodeAux fuel rest2 (((b0 % 32) * 64 + b1 % 64) :: acc)
          else none
      | [] => none
    else if b0 < 0xF0 then
      match rest with
      | b1 :: b2 :: rest2 =>
          if b1 / 64 = 2 ∧ b2 / 64 = 2 then
            if (b0 % 16) * 4096 + (b1 % 64) * 64 + b2 % 64 < 0x800 then none
            else if 0xD800 ≤ (b0 % 16) * 4096 + (b1 % 64) * 64 + b2 % 64 ∧
                (b0 % 16) * 4096 + (b1 % 64) * 64 + b2 % 64 < 0xE000 then none
            else utf8DecodeAux fuel rest2
                (((b0 % 16) * 4096 + (b1 % 64) * 64 + b2 % 64) :: acc)
          else none
      | _ => none
    else if b0 < 0xF5 then
      match rest with
      | b1 :: b2 :: b3 :: rest2 =>
          if b1 / 64 = 2 ∧ b2 / 64 = 2 ∧ b3 / 64 = 2 then
            if (b0 % 8) * 262144 + (b1 % 64) * 4096 + (b2 % 64) * 64 + b3 % 64 < 0x10000
            then none
            else if 0x10FFFF < (b0 % 8) * 262144 + (b1 % 64) * 4096 + (b2 % 64) * 64 + b3 % 64
            then none
            else utf8DecodeAux fuel rest2
                (((b0 % 8) * 262144 + (b1 % 64) * 4096 + (b2 % 64) * 64 + b3 % 64) :: acc)
          else none
      | _ => none
    else none

/-- Model of Python `bytes.decode` with the utf-8 codec: the decoded string,
or `none` on invalid input. -/
def utf8Decode (b : Bytes) : Option String :=
  match utf8DecodeAux b.length b [] with
  | some cps => some (String.mk (cps.map Char.ofNat))
  | none => none

/-- Model of Python `data.decode(encoding)`.  The repository only ever decodes
with the default utf-8 codec; other codec names are outside the model. -/
def pyDecode (data : Bytes) (encoding : String) : Except AzureError String :=
  if encoding = "utf-8" then
    match utf8Decode data with
    | some s => Except.ok s
    | none => Except.error (AzureError.unicodeDecodeError "utf-8")
  else Except.error (AzureError.encodingNotModelled encoding)

/-- The string-to-bytes marshaling of `upload_blob` (source lines 71-73):
`if isinstance(data, str): data = data.encode("utf-8")`. -/
def dataToBytes : BlobData → Bytes
  | BlobData.str s => utf8Encode s
  | BlobData.bytes b => b

/-- Modelled from the spec: the external SDK request
`BlobServiceClient.create_container` — signals already-exists for an existing
container name, otherwise creates an empty container and returns its handle
(the container name). -/
def sdkCreateContainer (s : AccountState) (c : String) :
    Except AzureError String × AccountState :=
  match listLookup s c with
  | some _ => (Except.error AzureError.resourceExists, s)
  | none => (Except.ok c, s ++ [(c, [])])

/-- Modelled from the spec: the external SDK request
`BlobClient.upload_blob(data, overwrite=...)` — not-found for a missing
container, already-exists for an existing blob when overwrite is disabled,
otherwise stores the bytes. -/
def sdkUploadBlob (s : AccountState) (c b : String) (data : Bytes)
    (overwrite : Bool) : Except AzureError Unit × AccountState :=
  match listLookup s c with
  | none => (Except.error AzureError.resourceNotFound, s)
  | some blobs =>
    match listLookup blobs b with
    | some _ =>
        if overwrite then (Except.ok (), listInsert s c (listInsert blobs b data))
        else (Except.error AzureError.resourceExists, s)
    | none => (Except.ok (), listInsert s c (blobs ++ [(b, data)]))

/-- Modelled from the spec: the external SDK request
`BlobClient.download_blob().readall()` — not-found for a missing container or
blob, otherwise the full byte content. -/
def sdkDownloadBlob (s : AccountState) (c b : String) :
    Except AzureError Bytes × AccountState :=
  match stateBlobLookup s c b with
  | none => (Except.error AzureError.resourceNotFound, s)
  | some data => (Except.ok data, s)

/-- Modelled from the spec: the external SDK request
`BlobClient.get_blob_properties()` — not-found for a missing container or
blob, otherwise succeeds. -/
def sdkGetBlobProperties (s : AccountState) (c b : String) :
    Except AzureError Unit × AccountState :=
  match stateBlobLookup s c b with
  | none => (Except.error AzureError.resourceNotFound, s)
  | some _ => (Except.ok (), s)

/-- Modelled from the spec: the external SDK request
`BlobClient.delete_blob()` — not-found for a missing container or blob,
otherwise removes the blob. -/
def sdkDeleteBlob (s : AccountState) (c b : String) :
    Except AzureError Unit × AccountState :=
  match listLookup s c with
  | none => (Except.error AzureError.resourceNotFound, s)
  | some blobs =>
    match listLookup blobs b with
    | none => (Except.error AzureError.resourceNotFound, s)
    | some _ => (Except.ok (), listInsert s c (listRemove blobs b))

/-- Modelled from the spec: the external SDK request
`BlobServiceClient.delete_container` — not-found for a missing container,
otherwise removes the container and all its blobs. -/
def sdkDeleteContainer (s : AccountState) (c : String) :
    Except AzureError Unit × AccountState :=
  match listLookup s c with
  | none => (Except.error AzureError.resourceNotFound, s)
  | some _ => (Except.ok (), listRemove s c)

/-- Modelled from the spec: the external SDK request
`ContainerClient.list_blobs` — not-found for a missing container, otherwise
the blob names in the remote listing order. -/
def sdkListBlobs (s : AccountState) (c : String) :
    Except AzureError (List String) × AccountState :=
  match listLookup s c with
  | none => (Except.error AzureError.resourceNotFound, s)
  | some blobs => (Except.ok (blobs.map Prod.fst), s)

/-- Python truthiness of `connection_string or os.getenv(...)` for optional
strings: `None` and the empty string are falsy. -/
def pyStrOr (a : Option String) (b : Option String) : Option String :=
  match a with
  | none => b
  | some s => if s = "" then b else some s

/-- AzureBlobStorage.__init__ (source lines 13-25): resolve the credential as
`connection_string or os.getenv("AZURE_STORAGE_CONNECTION_STRING")`, raise
`ValueError` when the result is falsy, otherwise eagerly build the service
client from the resolved string (modelled as returning that string; the SDK
constructor performs no connectivity round-trip).  The `env` argument is the
result of the `os.getenv` call. -/
def azureBlobStorageInit (connection_string : Option String)
    (env : Option String) : Except AzureError String :=
  match pyStrOr connection_string env with
  | none => Except.error (AzureError.valueError "Azure Storage connection string is required")
  | some cs =>
      if cs = "" then
        Except.error (AzureError.valueError "Azure Storage connection string is required")
      else Except.ok cs

/-- AzureBlobStorage.create_container (source lines 27-45): try the SDK
create request; on `ResourceExistsError` return the handle of the existing
container via `get_container_client` (a local handle construction, no request);
any other outcome passes through. -/
def create_container (s : AccountState) (container_name : String) :
    Except AzureError String × AccountState :=
  match sdkCreateContainer s container_name with
  | (Except.ok h, s2) => (Except.ok h, s2)
  | (Except.error AzureError.resourceExists, s2) => (Except.ok container_name, s2)
  | (Except.error e, s2) => (Except.error e, s2)

/-- AzureBlobStorage.upload_blob (source lines 47-76): build the blob handle
locally, convert string data to bytes with utf-8, issue the SDK upload, and
return the blob handle (container name, blob name). -/
def upload_blob (s : AccountState) (container_name blob_name : String)
    (data : BlobData) (overwrite : Bool) :
    Except AzureError (String × String) × AccountState :=
  match sdkUploadBlob s container_name blob_name (dataToBytes data) overwrite with
  | (Except.ok _, s2) => (Except.ok (container_name, blob_name), s2)
  | (Except.error e, s2) => (Except.error e, s2)

/-- AzureBlobStorage.download_blob (source lines 78-98): build the blob handle
locally and issue the SDK download; every error passes through. -/
def download_blob (s : AccountState) (container_name blob_name : String) :
    Except AzureError Bytes × AccountState :=
  sdkDownloadBlob s container_name blob_name

/-- AzureBlobStorage.get_blob_as_text (source lines 100-113): download the
blob, then decode the bytes with the given encoding; errors of the download
and of the decode both propagate. -/
def get_blob_as_text (s : AccountState) (container_name blob_name : String)
    (encoding : String) : Except AzureError String × AccountState :=
  match download_blob s container_name blob_name with
  | (Except.ok data, s2) => (pyDecode data encoding, s2)
  | (Except.error e, s2) => (Except.error e, s2)

/-- The exception translation inside AzureBlobStorage.blob_exists (source
lines 126-134), as a function of the outcome of the SDK
`get_blob_properties` call: the try body returns `true`, the
`except ResourceNotFoundError` clause returns `false`, and every other
exception escapes the handler. -/
def blobExistsHandler (r : Except AzureError Unit) : Except AzureError Bool :=
  match r with
  | Except.ok _ => Except.ok true
  | Except.error AzureError.resourceNotFound => Except.ok false
  | Except.error e => Except.error e

/-- AzureBlobStorage.blob_exists (source lines 115-134): issue the SDK
properties request and translate its outcome through the try/except. -/
def blob_exists (s : AccountState) (container_name blob_name : String) :
    Except AzureError Bool × AccountState :=
  (blobExistsHandler (sdkGetBlobProperties s container_name blob_name).1,
   (sdkGetBlobProperties s container_name blob_name).2)

/-- AzureBlobStorage.delete_blob (source lines 136-148): build the blob
handle locally and issue the SDK delete with no surrounding handler. -/
def delete_blob (s : AccountState) (container_name blob_name : String) :
    Except AzureError Unit × AccountState :=
  sdkDeleteBlob s container_name blob_name

/-- AzureBlobStorage.delete_container (source lines 150-157): issue the SDK
container delete with no surrounding handler. -/
def delete_container (s : AccountState) (container_name : String) :
    Except AzureError Unit × AccountState :=
  sdkDeleteContainer s container_name

/-- AzureBlobStorage.list_blobs (source lines 159-170): get the container
client locally and issue the SDK listing, collecting the blob names. -/
def list_blobs (s : AccountState) (container_name : String) :
    Except AzureError (List String) × AccountState :=
  sdkListBlobs s container_name

/-- Whether an `Except` outcome is a success. -/
def exceptOk {α : Type} : Except AzureError α → Bool
  | Except.ok _ => true
  | Except.error _ => false

deriving instance DecidableEq for Except

/-- Looking up the key just written by `listInsert` yields the new value. -/
theorem listLookup_listInsert_self {α : Type} (l : List (String × α)) (k : String) (v : α) :
    listLookup (listInsert l k v) k = some v := by
  induction l with
  | nil => simp [listInsert, listLookup]
  | cons p rest ih =>
    obtain ⟨k2, w⟩ := p
    by_cases h : k2 = k
    · simp [listInsert, h, listLookup]
    · simp [listInsert, h, listLookup, ih]

/-- Lookup skips a prefix that does not contain the key. -/
theorem listLookup_append_of_none {α : Type} (l l2 : List (String × α)) (k : String)
    (h : listLookup l k = none) : listLookup (l ++ l2) k = listLookup l2 k := by
  induction l with
  | nil => simp [listLookup]
  | cons p rest ih =>
    obtain ⟨k2, w⟩ := p
    by_cases hk : k2 = k
    · simp [listLookup, hk] at h
    · simp [listLookup, hk] at h ⊢
      exact ih h

/-- Looking up a key erased by `listRemove` yields nothing. -/
theorem listLookup_listRemove_self {α : Type} (l : List (String × α)) (k : String) :
    listLookup (listRemove l k) k = none := by
  induction l with
  | nil => simp [listRemove, listLookup]
  | cons p rest ih =>
    obtain ⟨k2, w⟩ := p
    by_cases hk : k2 = k
    · simp [listRemove, hk, ih]
    · simp [listRemove, hk, listLookup, ih]

/-- A successful upload stores exactly the marshalled bytes under the blob
name, in the named container. -/
theorem upload_blob_ok_store (s : AccountState) (c n : String) (d : BlobData) (ow : Bool)
    (h : exceptOk (upload_blob s c n d ow).1 = true) :
    stateBlobLookup (upload_blob s c n d ow).2 c n = some (dataToBytes d) := by
  rcases hc : listLookup s c with _ | blobs
  · simp [upload_blob, sdkUploadBlob, hc, exceptOk] at h
  · rcases hb : listLookup blobs n with _ | old
    · simp [upload_blob, sdkUploadBlob, hc, hb, stateBlobLookup, listLookup_listInsert_self]
      rw [listLookup_append_of_none blobs _ n hb]
      simp [listLookup]
    · cases ow with
      | false => simp [upload_blob, sdkUploadBlob, hc, hb, exceptOk] at h
      | true =>
          simp [upload_blob, sdkUploadBlob, hc, hb, stateBlobLookup,
            listLookup_listInsert_self]

/-- Uploading with overwrite enabled over an existing blob succeeds. -/
theorem upload_blob_overwrite_ok (s : AccountState) (c n : String) (d : BlobData) (bs : Bytes)
    (h : stateBlobLookup s c n = some bs) :
    exceptOk (upload_blob s c n d true).1 = true := by
  rcases hc : listLookup s c with _ | blobs
  · simp [stateBlobLookup, hc] at h
  · simp only [stateBlobLookup, hc] at h
    simp [upload_blob, sdkUploadBlob, hc, h, exceptOk]

/-- Downloading a present blob returns its stored content. -/
theorem download_blob_of_some (s : AccountState) (c n : String) (bs : Bytes)
    (h : stateBlobLookup s c n = some bs) :
    (download_blob s c n).1 = Except.ok bs := by
  simp [download_blob, sdkDownloadBlob, h]

/-- Downloading an absent blob signals not-found. -/
theorem download_blob_of_none (s : AccountState) (c n : String)
    (h : stateBlobLookup s c n = none) :
    (download_blob s c n).1 = Except.error AzureError.resourceNotFound := by
  simp [download_blob, sdkDownloadBlob, h]

/-- The existence check returns true on a present blob. -/
theorem blob_exists_of_some (s : AccountState) (c n : String) (bs : Bytes)
    (h : stateBlobLookup s c n = some bs) :
    (blob_exists s c n).1 = Except.ok true := by
  simp [blob_exists, sdkGetBlobProperties, h, blobExistsHandler]

/-- The existence check returns false on an absent blob. -/
theorem blob_exists_of_none (s : AccountState) (c n : String)
    (h : stateBlobLookup s c n = none) :
    (blob_exists s c n).1 = Except.ok false := by
  simp [blob_exists, sdkGetBlobProperties, h, blobExistsHandler]

/-- After a delete request the blob is absent, whether or not the request
succeeded. -/
theorem delete_blob_clears (s : AccountState) (c n : String) :
    stateBlobLookup (delete_blob s c n).2 c n = none := by
  rcases hc : listLookup s c with _ | blobs
  · simp [delete_blob, sdkDeleteBlob, hc, stateBlobLookup]
  · rcases hb : listLookup blobs n with _ | old
    · simp [delete_blob, sdkDeleteBlob, hc, hb, stateBlobLookup]
    · simp [delete_blob, sdkDeleteBlob, hc, hb, stateBlobLookup,
        listLookup_listInsert_self, listLookup_listRemove_self]

/-- Claim C1: after `upload_blob(container, N, C, overwrite=true)` succeeds,
`download_blob(container, N)` returns C bit-for-bit: the stored bytes for raw
content, the UTF-8 encoding for text content. -/
theorem upload_download_roundtrip (s : AccountState) (c n : String) (d : BlobData)
    (h : exceptOk (upload_blob s c n d true).1 = true) :
    (download_blob (upload_blob s c n d true).2 c n).1 = Except.ok (dataToBytes d) :=
  download_blob_of_some _ c n _ (upload_blob_ok_store s c n d true h)

/-- Claim C1 witness: a concrete round trip of raw bytes with an embedded
null byte through an existing container. -/
theorem upload_download_roundtrip_witness :
    exceptOk (upload_blob [("c", [])] "c" "n" (BlobData.bytes [0, 1, 255]) true).1 = true ∧
    (download_blob (upload_blob [("c", [])] "c" "n" (BlobData.bytes [0, 1, 255]) true).2 "c" "n").1
      = Except.ok (dataToBytes (BlobData.bytes [0, 1, 255])) :=
  ⟨by decide,
   upload_download_roundtrip [("c", [])] "c" "n" (BlobData.bytes [0, 1, 255]) (by decide)⟩

/-- Claim C2: `blob_exists` never raises not-found: the try/except translates
a not-found signal from the underlying client (missing blob or missing
container) to false, returns true when the properties call succeeds, and lets
every other error (auth, network) propagate unchanged. -/
theorem blob_exists_never_not_found :
    (∀ r : Except AzureError Unit,
      blobExistsHandler r ≠ Except.error AzureError.resourceNotFound) ∧
    (∀ u : Unit, blobExistsHandler (Except.ok u) = Except.ok true) ∧
    blobExistsHandler (Except.error AzureError.resourceNotFound) = Except.ok false ∧
    (∀ e : AzureError, e ≠ AzureError.resourceNotFound →
      blobExistsHandler (Except.error e) = Except.error e) ∧
    (∀ (s : AccountState) (c b : String),
      (blob_exists s c b).1 = blobExistsHandler (sdkGetBlobProperties s c b).1 ∧
      (stateBlobLookup s c b = none → (blob_exists s c b).1 = Except.ok false) ∧
      (∀ bs : Bytes, stateBlobLookup s c b = some bs →
        (blob_exists s c b).1 = Except.ok true)) := by
  refine ⟨?_, fun u => rfl, rfl, ?_, ?_⟩
  · intro r
    cases r with
    | ok u => simp [blobExistsHandler]
    | error e => cases e <;> simp [blobExistsHandler]
  · intro e he
    cases e <;> first | exact absurd rfl he | rfl
  · intro s c b
    exact ⟨rfl, blob_exists_of_none s c b, fun bs hb => blob_exists_of_some s c b bs hb⟩

/-- Claim C2 witness: a network error is neither absorbed nor rewritten by
the existence check. -/
theorem blob_exists_never_not_found_witness :
    blobExistsHandler (Except.error (AzureError.serviceRequestError "connection reset"))
      = Except.error (AzureError.serviceRequestError "connection reset") :=
  blob_exists_never_not_found.2.2.2.1 (AzureError.serviceRequestError "connection reset")
    (by decide)

/-- Claim C3: `create_container` is idempotent: the already-exists signal is
absorbed, a handle to the (existing) container is returned, a second call
with the same name also succeeds with the same handle and leaves the state
unchanged, and the container is present afterwards. -/
theorem create_container_idempotent (s : AccountState) (c : String) :
    (create_container s c).1 = Except.ok c ∧
    (create_container (create_container s c).2 c).1 = Except.ok c ∧
    (create_container (create_container s c).2 c).2 = (create_container s c).2 ∧
    listLookup (create_container s c).2 c ≠ none := by
  rcases hc : listLookup s c with _ | blobs
  · have h2 : listLookup (s ++ [(c, [])]) c = some [] := by
      rw [listLookup_append_of_none s _ c hc]
      simp [listLookup]
    refine ⟨?_, ?_, ?_, ?_⟩ <;> simp [create_container, sdkCreateContainer, hc, h2]
  · refine ⟨?_, ?_, ?_, ?_⟩ <;> simp [create_container, sdkCreateContainer, hc]

/-- Claim C4: construction resolves an explicit non-empty credential to
itself, falls back to the environment variable when no credential is given,
and fails with the missing-credential `ValueError` when neither yields one;
the resolved credential is eagerly turned into the client handle. -/
theorem init_credential_resolution :
    (∀ cs : String, cs ≠ "" → ∀ env : Option String,
      azureBlobStorageInit (some cs) env = Except.ok cs) ∧
    (∀ ev : String, ev ≠ "" → azureBlobStorageInit none (some ev) = Except.ok ev) ∧
    azureBlobStorageInit none none
      = Except.error (AzureError.valueError "Azure Storage connection string is required") ∧
    azureBlobStorageInit none (some "")
      = Except.error (AzureError.valueError "Azure Storage connection string is required") := by
  refine ⟨?_, ?_, rfl, rfl⟩
  · intro cs h env
    simp [azureBlobStorageInit, pyStrOr, h]
  · intro ev h
    simp [azureBlobStorageInit, pyStrOr, h]

/-- Claim C4 witness: concrete construction outcomes for an explicit
credential and for an environment-supplied one. -/
theorem init_credential_resolution_witness :
    azureBlobStorageInit (some "UseDevelopmentStorage=true") none
      = Except.ok "UseDevelopmentStorage=true" ∧
    azureBlobStorageInit none (some "envconn") = Except.ok "envconn" :=
  ⟨init_credential_resolution.1 "UseDevelopmentStorage=true" (by decide) none,
   init_credential_resolution.2.1 "envconn" (by decide)⟩

/-- Claim C5: within one container, `blob_exists` is false for a blob name
with no content stored, true immediately after a successful upload to that
name, and false again after `delete_blob` on that name. -/
theorem blob_lifecycle (s : AccountState) (c n : String) (d : BlobData) (ow : Bool) :
    (stateBlobLookup s c n = none → (blob_exists s c n).1 = Except.ok false) ∧
    (exceptOk (upload_blob s c n d ow).1 = true →
      (blob_exists (upload_blob s c n d ow).2 c n).1 = Except.ok true) ∧
    (blob_exists (delete_blob s c n).2 c n).1 = Except.ok false :=
  ⟨blob_exists_of_none s c n,
   fun h => blob_exists_of_some _ c n _ (upload_blob_ok_store s c n d ow h),
   blob_exists_of_none _ c n (delete_blob_clears s c n)⟩

/-- Claim C5 witness: the lifecycle at a concrete container state. -/
theorem blob_lifecycle_witness :
    (blob_exists [("c", [])] "c" "n").1 = Except.ok false ∧
    (blob_exists (upload_blob [("c", [])] "c" "n" (BlobData.str "v") true).2 "c" "n").1
      = Except.ok true :=
  ⟨(blob_lifecycle [("c", [])] "c" "n" (BlobData.str "v") true).1 (by decide),
   (blob_lifecycle [("c", [])] "c" "n" (BlobData.str "v") true).2.1 (by decide)⟩

/-- Claim C6: last-write-wins under explicit overwrite: after a successful
upload of C1 to N followed by an upload of C2 to N with overwrite enabled,
downloading N returns the byte form of C2. -/
theorem last_write_wins (s : AccountState) (c n : String) (d1 d2 : BlobData) (ow : Bool)
    (h : exceptOk (upload_blob s c n d1 ow).1 = true) :
    (download_blob (upload_blob (upload_blob s c n d1 ow).2 c n d2 true).2 c n).1
      = Except.ok (dataToBytes d2) := by
  have h1 := upload_blob_ok_store s c n d1 ow h
  have h2 := upload_blob_overwrite_ok (upload_blob s c n d1 ow).2 c n d2 _ h1
  exact download_blob_of_some _ c n _ (upload_blob_ok_store _ c n d2 true h2)

/-- Claim C6 witness: overwriting a concrete text blob and downloading the
new content. -/
theorem last_write_wins_witness :
    exceptOk (upload_blob [("c", [])] "c" "n" (BlobData.str "old") true).1 = true ∧
    (download_blob
      (upload_blob (upload_blob [("c", [])] "c" "n" (BlobData.str "old") true).2
        "c" "n" (BlobData.str "new") true).2 "c" "n").1
      = Except.ok (dataToBytes (BlobData.str "new")) :=
  ⟨by decide,
   last_write_wins [("c", [])] "c" "n" (BlobData.str "old") (BlobData.str "new") true
     (by decide)⟩

/-- Claim C7: text marshaling: a successful upload of text stores its UTF-8
encoding while raw bytes are stored unchanged, and `get_blob_as_text` with
the utf-8 encoding yields exactly the downloaded bytes decoded: not-found
propagates for an absent blob, a decode failure raises the decoding error,
and valid bytes decode to the returned string. -/
theorem text_marshaling :
    (∀ (s : AccountState) (c n t : String),
      exceptOk (upload_blob s c n (BlobData.str t) true).1 = true →
      stateBlobLookup (upload_blob s c n (BlobData.str t) true).2 c n
        = some (utf8Encode t)) ∧
    (∀ (s : AccountState) (c n : String) (b : Bytes),
      exceptOk (upload_blob s c n (BlobData.bytes b) true).1 = true →
      stateBlobLookup (upload_blob s c n (BlobData.bytes b) true).2 c n = some b) ∧
    (∀ (s : AccountState) (c n : String), stateBlobLookup s c n = none →
      (get_blob_as_text s c n "utf-8").1 = Except.error AzureError.resourceNotFound) ∧
    (∀ (s : AccountState) (c n : String) (bs : Bytes) (t : String),
      stateBlobLookup s c n = some bs → utf8Decode bs = some t →
      (get_blob_as_text s c n "utf-8").1 = Except.ok t) ∧
    (∀ (s : AccountState) (c n : String) (bs : Bytes),
      stateBlobLookup s c n = some bs → utf8Decode bs = none →
      (get_blob_as_text s c n "utf-8").1
        = Except.error (AzureError.unicodeDecodeError "utf-8")) := by
  refine ⟨?_, ?_, ?_, ?_, ?_⟩
  · intro s c n t h
    exact upload_blob_ok_store s c n (BlobData.str t) true h
  · intro s c n b h
    exact upload_blob_ok_store s c n (BlobData.bytes b) true h
  · intro s c n h
    simp [get_blob_as_text, download_blob, sdkDownloadBlob, h]
  · intro s c n bs t h hdec
    simp [get_blob_as_text, download_blob, sdkDownloadBlob, h, pyDecode, hdec]
  · intro s c n bs h hdec
    simp [get_blob_as_text, download_blob, sdkDownloadBlob, h, pyDecode, hdec]

/-- Claim C7 witness: a stored text blob, an invalid-UTF-8 blob, and an
absent blob exercised through the text accessor. -/
theorem text_marshaling_witness :
    stateBlobLookup (upload_blob [("c", [])] "c" "f" (BlobData.str "hé") true).2 "c" "f"
      = some (utf8Encode "hé") ∧
    (get_blob_as_text [("c", [("f", [104, 200])])] "c" "f" "utf-8").1
      = Except.error (AzureError.unicodeDecodeError "utf-8") ∧
    (get_blob_as_text [("c", [])] "c" "f" "utf-8").1
      = Except.error AzureError.resourceNotFound :=
  ⟨text_marshaling.1 [("c", [])] "c" "f" "hé" (by decide),
   text_marshaling.2.2.2.2 [("c", [("f", [104, 200])])] "c" "f" [104, 200]
     (by decide) (by decide),
   text_marshaling.2.2.1 [("c", [])] "c" "f" (by decide)⟩

/-- Claim C8: `delete_blob` on an absent blob (missing blob or missing
container) fails with not-found and leaves the state unchanged: the facade
wraps no handler around the underlying delete request. -/
theorem delete_absent_not_found (s : AccountState) (c n : String)
    (h : stateBlobLookup s c n = none) :
    (delete_blob s c n).1 = Except.error AzureError.resourceNotFound ∧
    (delete_blob s c n).2 = s := by
  rcases hc : listLookup s c with _ | blobs
  · simp [delete_blob, sdkDeleteBlob, hc]
  · simp only [stateBlobLookup, hc] at h
    simp [delete_blob, sdkDeleteBlob, hc, h]

/-- Claim C8 witness: deleting a never-uploaded blob in an existing
container. -/
theorem delete_absent_not_found_witness :
    (delete_blob [("c", [])] "c" "n").1 = Except.error AzureError.resourceNotFound ∧
    (delete_blob [("c", [])] "c" "n").2 = [("c", [])] :=
  delete_absent_not_found [("c", [])] "c" "n" (by decide)

/-- Claim C9: an explicit empty-string credential is treated exactly like an
absent one: construction falls back to the environment variable, succeeds on
a non-empty environment value, and raises the missing-credential error when
the environment is unset or empty; the check is on string falsiness. -/
theorem init_empty_credential_fallback :
    (∀ ev : String, ev ≠ "" →
      azureBlobStorageInit (some "") (some ev) = Except.ok ev) ∧
    azureBlobStorageInit (some "") none
      = Except.error (AzureError.valueError "Azure Storage connection string is required") ∧
    azureBlobStorageInit (some "") (some "")
      = Except.error (AzureError.valueError "Azure Storage connection string is required") ∧
    (∀ env : Option String, azureBlobStorageInit (some "") env = azureBlobStorageInit none env) := by
  refine ⟨?_, rfl, rfl, ?_⟩
  · intro ev h
    simp [azureBlobStorageInit, pyStrOr, h]
  · intro env
    simp [azureBlobStorageInit, pyStrOr]

/-- Claim C9 witness: an empty explicit credential resolving through the
environment variable. -/
theorem init_empty_credential_fallback_witness :
    azureBlobStorageInit (some "") (some "envconn") = Except.ok "envconn" :=
  init_empty_credential_fallback.1 "envconn" (by decide)

/-- Claim C10: the read operations `blob_exists`, `download_blob`,
`get_blob_as_text` and `list_blobs` mutate nothing: they leave the whole
account state, hence every container and every blob content, unchanged. -/
theorem read_operations_frame (s : AccountState) (c n encoding : String) :
    (blob_exists s c n).2 = s ∧
    (download_blob s c n).2 = s ∧
    (get_blob_as_text s c n encoding).2 = s ∧
    (list_blobs s c).2 = s := by
  rcases hc : listLookup s c with _ | blobs
  · simp [blob_exists, blobExistsHandler, download_blob, sdkDownloadBlob,
      sdkGetBlobProperties, get_blob_as_text, list_blobs, sdkListBlobs,
      stateBlobLookup, hc]
  · rcases hb : listLookup blobs n with _ | bs
    · simp [blob_exists, blobExistsHandler, download_blob, sdkDownloadBlob,
        sdkGetBlobProperties, get_blob_as_text, list_blobs, sdkListBlobs,
        stateBlobLookup, hc, hb]
    · simp [blob_exists, blobExistsHandler, download_blob, sdkDownloadBlob,
        sdkGetBlobProperties, get_blob_as_text, list_blobs, sdkListBlobs,
        stateBlobLookup, hc, hb]

end AzureBlob
